import Mathlib

/-!
A verification development for `raysect/optical/observer/refactored_cameras.py`.

The Python source is shallowly embedded here:
* floating-point quantities are modelled as exact rationals (`ℚ`);
* the `xyz_frame` numpy array becomes a function `Fin ny → Fin nx → ℚ × ℚ × ℚ`;
* the per-pixel sampling call `pixel.sample_pixel(...)` composed with the
  external colour conversion `spectrum_to_ciexyz` is a deterministic stub
  parameter, as in the spec's Pixel Sampling Contract;
* code paths whose behaviour hinges on Python/numpy dynamic typing
  (attribute lookup, tuple unpacking of arrays, array-valued shapes) are
  modelled explicitly with small `Except`-valued evaluators.
-/

namespace RefactoredCameras

/-! ### Spectral channel planner

Embedding of `Camera._calc_wvl_channel_config` (lines 258-274): splits
`[min_wavelength, max_wavelength]` into `spectral_rays` equal sub-ranges,
each carrying the camera's `spectral_samples`.
-/

/-- The spectral part of the camera configuration read by
`_calc_wvl_channel_config`: `min_wavelength`, `max_wavelength`,
`spectral_rays` and `spectral_samples` as set up in `Camera.__init__`. -/
structure SpectralConfig where
  min_wavelength : ℚ
  max_wavelength : ℚ
  spectral_rays : ℕ
  spectral_samples : ℕ

/-- `delta_wavelength` in `_calc_wvl_channel_config`:
`(self.max_wavelength - self.min_wavelength) / self.spectral_rays`. -/
def deltaWavelength (c : SpectralConfig) : ℚ :=
  (c.max_wavelength - c.min_wavelength) / (c.spectral_rays : ℚ)

/-- `Camera._calc_wvl_channel_config`: returns the list of
`(min_wavelength, max_wavelength, spectral_samples)` channel tuples. -/
def calcWvlChannelConfig (c : SpectralConfig) : List (ℚ × ℚ × ℕ) :=
  (List.range c.spectral_rays).map fun (index : ℕ) =>
    (c.min_wavelength + deltaWavelength c * (index : ℚ),
     c.min_wavelength + deltaWavelength c * ((index : ℚ) + 1),
     c.spectral_samples)

/-- The channel list has one entry per spectral ray. -/
lemma calcWvl_length (c : SpectralConfig) :
    (calcWvlChannelConfig c).length = c.spectral_rays := by
  unfold calcWvlChannelConfig
  rw [List.length_map, List.length_range]

/-- Closed form of the `i`-th planned channel. -/
lemma calcWvl_get (c : SpectralConfig) (i : ℕ)
    (hi : i < (calcWvlChannelConfig c).length) :
    (calcWvlChannelConfig c).get ⟨i, hi⟩ =
      (c.min_wavelength + deltaWavelength c * (i : ℚ),
       c.min_wavelength + deltaWavelength c * ((i : ℚ) + 1),
       c.spectral_samples) := by
  unfold calcWvlChannelConfig at hi ⊢
  rw [List.get_eq_getElem, List.getElem_map, List.getElem_range]

/-- C6: for `spectral_rays = R ≥ 1` and `min_wavelength ≤ max_wavelength`, the
channel planner returns exactly `R` channels; the `i`-th channel is
`[λmin + δ·i, λmin + δ·(i+1)]` with `δ = (λmax − λmin)/R`, so every channel
has equal width `δ`, consecutive channels are contiguous (the upper bound of
channel `i` is the lower bound of channel `i+1`), the first channel starts at
`λmin`, the last ends at `λmax`, the bounds of each channel are ordered
(hence, with contiguity, the channels are non-overlapping and cover exactly
the original range), and every channel carries the same `spectral_samples`. -/
theorem c6_channel_planner (c : SpectralConfig) (hR : 1 ≤ c.spectral_rays)
    (hw : c.min_wavelength ≤ c.max_wavelength) :
    (calcWvlChannelConfig c).length = c.spectral_rays ∧
    (∀ i (hi : i < (calcWvlChannelConfig c).length),
      ((calcWvlChannelConfig c).get ⟨i, hi⟩).2.1 -
          ((calcWvlChannelConfig c).get ⟨i, hi⟩).1 =
        (c.max_wavelength - c.min_wavelength) / (c.spectral_rays : ℚ)) ∧
    (∀ i (hi : i + 1 < (calcWvlChannelConfig c).length),
      ((calcWvlChannelConfig c).get
          ⟨i, Nat.lt_of_succ_lt hi⟩).2.1 =
        ((calcWvlChannelConfig c).get ⟨i + 1, hi⟩).1) ∧
    (∀ h0 : 0 < (calcWvlChannelConfig c).length,
      ((calcWvlChannelConfig c).get ⟨0, h0⟩).1 = c.min_wavelength) ∧
    (∀ hl : c.spectral_rays - 1 < (calcWvlChannelConfig c).length,
      ((calcWvlChannelConfig c).get ⟨c.spectral_rays - 1, hl⟩).2.1 =
        c.max_wavelength) ∧
    (∀ i (hi : i < (calcWvlChannelConfig c).length),
      ((calcWvlChannelConfig c).get ⟨i, hi⟩).1 ≤
        ((calcWvlChannelConfig c).get ⟨i, hi⟩).2.1) ∧
    (∀ ch ∈ calcWvlChannelConfig c, ch.2.2 = c.spectral_samples) := by
  have hRpos : 0 < c.spectral_rays := hR
  have hRQ : (c.spectral_rays : ℚ) ≠ 0 := by exact_mod_cast hRpos.ne'
  have hdelta_nonneg : 0 ≤ deltaWavelength c := by
    unfold deltaWavelength
    apply div_nonneg (by linarith) (by positivity)
  refine ⟨calcWvl_length c, ?_, ?_, ?_, ?_, ?_, ?_⟩
  · intro i hi
    rw [calcWvl_get c i hi]
    unfold deltaWavelength
    ring
  · intro i hi
    rw [calcWvl_get c i (Nat.lt_of_succ_lt hi), calcWvl_get c (i + 1) hi]
    push_cast
    ring
  · intro h0
    rw [calcWvl_get c 0 h0]
    push_cast
    ring
  · intro hl
    rw [calcWvl_get c (c.spectral_rays - 1) hl]
    have hcast : ((c.spectral_rays - 1 : ℕ) : ℚ) + 1 = (c.spectral_rays : ℚ) := by
      exact_mod_cast congrArg (fun n : ℕ => (n : ℚ))
        (Nat.succ_pred_eq_of_pos hRpos)
    simp only [hcast]
    unfold deltaWavelength
    field_simp
  · intro i hi
    rw [calcWvl_get c i hi]
    simp only
    nlinarith [hdelta_nonneg]
  · intro ch hch
    obtain ⟨⟨i, hi⟩, rfl⟩ := List.mem_iff_get.mp hch
    rw [calcWvl_get c i hi]

/-- The spec's scenario configuration: the default wavelength range
`[375, 740]` split into 3 channels of 20 samples each. -/
def specExample : SpectralConfig := ⟨375, 740, 3, 20⟩

/-- Witness for C6 at the concrete scenario configuration `specExample`. -/
theorem c6_channel_planner_witness :
    (1 ≤ specExample.spectral_rays ∧
      specExample.min_wavelength ≤ specExample.max_wavelength) ∧
    ((calcWvlChannelConfig specExample).length = specExample.spectral_rays ∧
    (∀ i (hi : i < (calcWvlChannelConfig specExample).length),
      ((calcWvlChannelConfig specExample).get ⟨i, hi⟩).2.1 -
          ((calcWvlChannelConfig specExample).get ⟨i, hi⟩).1 =
        (specExample.max_wavelength - specExample.min_wavelength) /
          (specExample.spectral_rays : ℚ)) ∧
    (∀ i (hi : i + 1 < (calcWvlChannelConfig specExample).length),
      ((calcWvlChannelConfig specExample).get
          ⟨i, Nat.lt_of_succ_lt hi⟩).2.1 =
        ((calcWvlChannelConfig specExample).get ⟨i + 1, hi⟩).1) ∧
    (∀ h0 : 0 < (calcWvlChannelConfig specExample).length,
      ((calcWvlChannelConfig specExample).get ⟨0, h0⟩).1 =
        specExample.min_wavelength) ∧
    (∀ hl : specExample.spectral_rays - 1 <
        (calcWvlChannelConfig specExample).length,
      ((calcWvlChannelConfig specExample).get
          ⟨specExample.spectral_rays - 1, hl⟩).2.1 =
        specExample.max_wavelength) ∧
    (∀ i (hi : i < (calcWvlChannelConfig specExample).length),
      ((calcWvlChannelConfig specExample).get ⟨i, hi⟩).1 ≤
        ((calcWvlChannelConfig specExample).get ⟨i, hi⟩).2.1) ∧
    (∀ ch ∈ calcWvlChannelConfig specExample,
      ch.2.2 = specExample.spectral_samples)) :=
  ⟨⟨by norm_num [specExample], by norm_num [specExample]⟩,
    c6_channel_planner specExample (by norm_num [specExample])
      (by norm_num [specExample])⟩

/-! ### The sequential engine's *intended* accumulation algebra

The algebra spelled out by `Camera._observe_single` lines 114-146 and the
bookkeeping of `Camera.observe` lines 100-106 (`accumulate = True`,
`process_count = 1` path).  The `xyz_frame` array of shape `(ny, nx, 3)`
becomes `Fin ny → Fin nx → ℚ × ℚ × ℚ`; the composite of
`pixel.sample_pixel(min_wavelength, max_wavelength, spectral_samples, self)`
and the external conversion `spectrum_to_ciexyz` is a deterministic stub
taking the channel tuple and the pixel coordinate, per the spec's Pixel
Sampling Contract.

IMPORTANT CAVEAT: in the program as written these lines are *unreachable*.
`_observe_single` calls `_start_statistics` at line 112, before the
weighting at lines 115-120, and `_start_statistics` always raises
(`self._pixels[0] * self._pixels[1]` multiplies rows of the pixel object
array, line 314, and `self.rays` is not a defined attribute, line 315; see
`startStatistics` and `observeSingleStrict` below); even past that, the
in-loop statistics expression `ix + self._pixels[0] * iy` (line 149) raises
after the first pixel.  The definitions of this section therefore model the
*intended* behaviour those lines denote — what the engine would compute were
the reporter calls not raising — and back only the intended-behaviour halves
of the C1/C2/C4 theorems, whose other halves evaluate the actual aborting
paths.
-/

/-- A tristimulus triplet: one cell of `xyz_frame`. -/
abbrev Triple : Type := ℚ × ℚ × ℚ

/-- The `xyz_frame` buffer, indexed `[iy, ix]` as in the source. -/
abbrev Frame (nx ny : ℕ) : Type := Fin ny → Fin nx → Triple

/-- Per-pass configuration of `observe()`: the spectral configuration, the
`pixel_samples` count, and the deterministic pixel-sampling stub
(wavelength range, sample count, `ix`, `iy` ↦ xyz triplet). -/
structure PassCfg (nx ny : ℕ) where
  spec : SpectralConfig
  pixel_samples : ℕ
  stub : ℚ → ℚ → ℕ → Fin nx → Fin ny → Triple

/-- Mutable camera state touched by `observe()`: `xyz_frame` and
`accumulated_samples`. -/
structure CamState (nx ny : ℕ) where
  xyz_frame : Frame nx ny
  accumulated_samples : ℕ

variable {nx ny : ℕ}

/-- The raster traversal of `_observe_single` lines 131-132:
`for iy in range(ny): for ix in range(nx)`, as `(iy, ix)` pairs. -/
def rasterCoords (nx ny : ℕ) : List (Fin ny × Fin nx) :=
  (List.finRange ny).flatMap fun iy => (List.finRange nx).map fun ix => (iy, ix)

/-- One pixel update (lines 141-143): add `v` into cell `c` of the frame. -/
def applySample (F : Frame nx ny) (c : Fin ny × Fin nx) (v : Triple) :
    Frame nx ny :=
  fun iy ix => if iy = c.1 ∧ ix = c.2 then F iy ix + v else F iy ix

/-- `total_samples` (line 115):
`self.accumulated_samples + self.pixel_samples * self.spectral_rays`
(the code multiplies in the order `spectral_rays * pixel_samples` at
line 117 and `pixel_samples * spectral_rays` at lines 106/115; both casts
are kept as written). -/
def totalSamplesQ (A : ℕ) (p : PassCfg nx ny) : ℚ :=
  (A : ℚ) + (p.pixel_samples : ℚ) * (p.spec.spectral_rays : ℚ)

/-- `previous_weight` (line 116). -/
def previousWeight (A : ℕ) (p : PassCfg nx ny) : ℚ :=
  (A : ℚ) / totalSamplesQ A p

/-- `added_weight` (line 117). -/
def addedWeight (A : ℕ) (p : PassCfg nx ny) : ℚ :=
  (p.spec.spectral_rays : ℚ) * (p.pixel_samples : ℚ) / totalSamplesQ A p

/-- The inner pixel loop of one spectral channel (lines 131-143): every
pixel's stub contribution for channel `ch` is folded in with weight `aw`. -/
def channelPass (p : PassCfg nx ny) (aw : ℚ) (ch : ℚ × ℚ × ℕ)
    (F : Frame nx ny) : Frame nx ny :=
  (rasterCoords nx ny).foldl
    (fun Fc c => applySample Fc c (aw • p.stub ch.1 ch.2.1 ch.2.2 c.2 c.1)) F

/-- The *intended* frame transformation denoted by `_observe_single` lines
114-143: scale the whole frame by `previous_weight` once (line 120), then
run the channel loop (line 123) over the planned channels.  Execution never
reaches these lines — `_start_statistics` raises at line 112 first (see
`observeSingleStrict`); this definition is the intended-behaviour model
only. -/
def observeSingleFrame (p : PassCfg nx ny) (A : ℕ) (F : Frame nx ny) :
    Frame nx ny :=
  (calcWvlChannelConfig p.spec).foldl
    (fun Fc ch => channelPass p (addedWeight A p) ch Fc)
    (fun iy ix => previousWeight A p • F iy ix)

/-- One *intended* progressive `observe()` call (lines 100-106 with
`accumulate` kept): the sequential engine's fold followed by
`accumulated_samples += pixel_samples * spectral_rays` (line 106).  In the
program neither step completes: the pass raises inside `_observe_single`
before the frame is touched, so line 106 never runs (see
`observeSingleStrict`); this definition is the intended-behaviour model
only. -/
def observeProgressive (p : PassCfg nx ny) (s : CamState nx ny) :
    CamState nx ny :=
  { xyz_frame := observeSingleFrame p s.accumulated_samples s.xyz_frame,
    accumulated_samples :=
      s.accumulated_samples + p.pixel_samples * p.spec.spectral_rays }

/-- The pass's sample count `N = pixel_samples * spectral_rays`. -/
def passN (p : PassCfg nx ny) : ℕ := p.pixel_samples * p.spec.spectral_rays

/-- The pass's full-spectrum per-pixel contribution: the sum of the stub's
xyz triplets over the planned channels.  For a deterministic stub this is
the pass's true per-pixel mean `m`. -/
def passContrib (p : PassCfg nx ny) (iy : Fin ny) (ix : Fin nx) : Triple :=
  ((calcWvlChannelConfig p.spec).map fun ch => p.stub ch.1 ch.2.1 ch.2.2 ix iy).sum

/-- A fresh camera's state: zero frame, zero `accumulated_samples`
(`Camera.__init__` lines 57-60). -/
def initState (nx ny : ℕ) : CamState nx ny := ⟨fun _ _ => 0, 0⟩

/-- A sequence of *intended* progressive `observe()` calls starting from a
fresh camera (see the caveat on `observeProgressive`). -/
def runPasses (ps : List (PassCfg nx ny)) : CamState nx ny :=
  ps.foldl (fun s p => observeProgressive p s) (initState nx ny)

/-- Counting in a `flatMap` is the sum of the inner counts. -/
lemma count_flatMap_eq {α β : Type} [BEq β] (l : List α) (f : α → List β)
    (b : β) :
    (l.flatMap f).count b = (l.map fun a => (f a).count b).sum := by
  induction l with
  | nil => simp
  | cons a l ih => simp [List.flatMap_cons, List.count_append, ih]

/-- Counting a pair with fixed first component in a tagged list. -/
lemma count_pair_map {α β : Type} [BEq α] [LawfulBEq α] [DecidableEq α]
    [BEq β] [LawfulBEq β] (j : α) (l : List β) (i : α) (c : β) :
    (l.map fun d => (j, d)).count (i, c) = if j = i then l.count c else 0 := by
  induction l with
  | nil => simp
  | cons a l ih =>
    by_cases h1 : j = i
    · subst h1
      rw [if_pos rfl] at ih ⊢
      rw [List.map_cons, List.count_cons, ih, List.count_cons]
      by_cases h2 : a = c
      · subst h2
        simp
      · have hb1 : (a == c) = false := beq_eq_false_iff_ne.mpr h2
        have hb2 : ((j, a) == (j, c)) = false :=
          beq_eq_false_iff_ne.mpr (by simp [Prod.ext_iff, h2])
        rw [hb1, hb2]
    · rw [if_neg h1] at ih ⊢
      rw [List.map_cons, List.count_cons, ih]
      have hb : ((j, a) == (i, c)) = false :=
        beq_eq_false_iff_ne.mpr (by simp [Prod.ext_iff, h1])
      rw [hb]
      simp

/-- Summing an indicator over a duplicate-free list containing the marked
element gives 1. -/
lemma sum_indicator_nodup {α : Type} [DecidableEq α] (l : List α) (a : α)
    (h : l.Nodup) (hm : a ∈ l) :
    (l.map fun x => if x = a then (1 : ℕ) else 0).sum = 1 := by
  induction l with
  | nil => cases hm
  | cons b l ih =>
    rw [List.map_cons, List.sum_cons]
    rcases List.mem_cons.mp hm with rfl | hmem
    · have hnotin : a ∉ l := (List.nodup_cons.mp h).1
      rw [if_pos rfl]
      have hz : (l.map fun x => if x = a then (1 : ℕ) else 0).sum = 0 := by
        apply List.sum_eq_zero
        intro x hx
        obtain ⟨y, hy, rfl⟩ := List.mem_map.mp hx
        rw [if_neg]
        rintro rfl
        exact hnotin hy
      rw [hz]
    · have hb : b ≠ a := by
        rintro rfl
        exact (List.nodup_cons.mp h).1 hmem
      rw [if_neg hb, ih (List.nodup_cons.mp h).2 hmem]

/-- Every pixel coordinate occurs exactly once in the raster traversal. -/
lemma count_rasterCoords (c : Fin ny × Fin nx) :
    (rasterCoords nx ny).count c = 1 := by
  obtain ⟨iy, ix⟩ := c
  rw [rasterCoords, count_flatMap_eq]
  have hrow : ∀ iyr : Fin ny,
      ((List.finRange nx).map fun i => (iyr, i)).count (iy, ix) =
        if iyr = iy then 1 else 0 := by
    intro iyr
    rw [count_pair_map,
      List.count_eq_one_of_mem (List.nodup_finRange nx) (List.mem_finRange ix)]
  rw [List.map_congr_left fun iyr _ => hrow iyr]
  exact sum_indicator_nodup (List.finRange ny) iy (List.nodup_finRange ny)
    (List.mem_finRange iy)

/-- Folding per-coordinate updates over a coordinate list adds, at each
cell, the cell's value once per occurrence of its coordinate. -/
lemma foldl_applySample (l : List (Fin ny × Fin nx))
    (v : Fin ny × Fin nx → Triple) (F : Frame nx ny) (iy : Fin ny)
    (ix : Fin nx) :
    (l.foldl (fun Fc c => applySample Fc c (v c)) F) iy ix
      = F iy ix + (l.count (iy, ix)) • v (iy, ix) := by
  induction l generalizing F with
  | nil => simp
  | cons a l ih =>
    rw [List.foldl_cons, ih, List.count_cons]
    by_cases h : a = (iy, ix)
    · subst h
      have happ : applySample F (iy, ix) (v (iy, ix)) iy ix
          = F iy ix + v (iy, ix) := by
        unfold applySample
        rw [if_pos ⟨rfl, rfl⟩]
      rw [happ]
      have hone : (if ((iy, ix) == (iy, ix)) = true then (1 : ℕ) else 0) = 1 := by
        simp
      rw [hone, succ_nsmul]
      abel
    · have hbeq : (a == (iy, ix)) = false := by simp [h]
      have hcond : ¬ (iy = a.1 ∧ ix = a.2) := by
        rintro ⟨h1, h2⟩
        exact h (Prod.ext_iff.mpr ⟨h1.symm, h2.symm⟩)
      have happ : applySample F a (v a) iy ix = F iy ix := by
        unfold applySample
        rw [if_neg hcond]
      rw [happ, hbeq]
      simp

/-- One channel pass adds exactly one weighted stub contribution to every
cell. -/
lemma channelPass_apply (p : PassCfg nx ny) (aw : ℚ) (ch : ℚ × ℚ × ℕ)
    (F : Frame nx ny) (iy : Fin ny) (ix : Fin nx) :
    channelPass p aw ch F iy ix
      = F iy ix + aw • p.stub ch.1 ch.2.1 ch.2.2 ix iy := by
  have h := foldl_applySample (rasterCoords nx ny)
    (fun c => aw • p.stub ch.1 ch.2.1 ch.2.2 c.2 c.1) F iy ix
  rw [count_rasterCoords] at h
  simpa [channelPass] using h

/-- Folding the channel loop adds the weighted channel-sum to every cell. -/
lemma foldl_channelPass (p : PassCfg nx ny) (aw : ℚ) (l : List (ℚ × ℚ × ℕ))
    (F : Frame nx ny) (iy : Fin ny) (ix : Fin nx) :
    (l.foldl (fun Fc ch => channelPass p aw ch Fc) F) iy ix
      = F iy ix + aw • (l.map fun ch => p.stub ch.1 ch.2.1 ch.2.2 ix iy).sum := by
  induction l generalizing F with
  | nil => simp
  | cons ch l ih =>
    rw [List.foldl_cons, ih, channelPass_apply, List.map_cons, List.sum_cons,
      smul_add, add_assoc]

/-- Pointwise closed form of the sequential engine's frame update. -/
lemma observeSingleFrame_apply (p : PassCfg nx ny) (A : ℕ) (F : Frame nx ny)
    (iy : Fin ny) (ix : Fin nx) :
    observeSingleFrame p A F iy ix
      = previousWeight A p • F iy ix + addedWeight A p • passContrib p iy ix := by
  unfold observeSingleFrame passContrib
  rw [foldl_channelPass]

/-- `total_samples` equals `A + N` with `N = passN`. -/
lemma totalSamplesQ_eq (A : ℕ) (p : PassCfg nx ny) :
    totalSamplesQ A p = (A : ℚ) + (passN p : ℚ) := by
  unfold totalSamplesQ passN
  push_cast
  ring

/-- Closed form of one *intended* pass with prior counter `A` and new
sample count `N = pixel_samples * spectral_rays > 0`: the frame is scaled
by `previous_weight = A / (A + N)` once, each pixel contribution is added
with `added_weight = N / (A + N)`, and the counter becomes `A + N`. -/
lemma observeProgressive_closed_form (p : PassCfg nx ny) (s : CamState nx ny)
    (hN : 0 < passN p) :
    (observeProgressive p s).accumulated_samples
        = s.accumulated_samples + passN p ∧
    ∀ (iy : Fin ny) (ix : Fin nx),
      (observeProgressive p s).xyz_frame iy ix
        = ((s.accumulated_samples : ℚ) /
              ((s.accumulated_samples : ℚ) + (passN p : ℚ)))
            • s.xyz_frame iy ix
          + ((passN p : ℚ) /
              ((s.accumulated_samples : ℚ) + (passN p : ℚ)))
            • passContrib p iy ix := by
  constructor
  · rfl
  · intro iy ix
    have hxyz : (observeProgressive p s).xyz_frame
        = observeSingleFrame p s.accumulated_samples s.xyz_frame := rfl
    rw [hxyz, observeSingleFrame_apply]
    have hpw : previousWeight s.accumulated_samples p
        = (s.accumulated_samples : ℚ) /
            ((s.accumulated_samples : ℚ) + (passN p : ℚ)) := by
      unfold previousWeight
      rw [totalSamplesQ_eq]
    have haw : addedWeight s.accumulated_samples p
        = (passN p : ℚ) /
            ((s.accumulated_samples : ℚ) + (passN p : ℚ)) := by
      unfold addedWeight
      rw [totalSamplesQ_eq]
      congr 1
      unfold passN
      push_cast
      ring
    rw [hpw, haw]

/-- A deterministic example stub on a 1×1 image: every sample is the
triplet `(1, 2, 3)`. -/
def stubExample : ℚ → ℚ → ℕ → Fin 1 → Fin 1 → Triple := fun _ _ _ _ _ => (1, 2, 3)

/-- Example pass: one spectral ray over `[375, 740]`, one pixel sample. -/
def passExample : PassCfg 1 1 := ⟨⟨375, 740, 1, 20⟩, 1, stubExample⟩

/-- Example prior state: one accumulated sample, frame full of `(5, 5, 5)`. -/
def stateExample : CamState 1 1 := ⟨fun _ _ => (5, 5, 5), 1⟩

/-- Running the remaining passes from any state: the accumulated counter
adds up and the counter-weighted frame value accumulates the
sample-weighted pass contributions.  This is the loop invariant behind the
weighted-mean property. -/
lemma runPasses_aux (ps : List (PassCfg nx ny))
    (h : ∀ p ∈ ps, 0 < passN p) (s : CamState nx ny) :
    (ps.foldl (fun t p => observeProgressive p t) s).accumulated_samples
        = s.accumulated_samples + (ps.map passN).sum ∧
    ∀ (iy : Fin ny) (ix : Fin nx),
      (((ps.foldl (fun t p => observeProgressive p t) s).accumulated_samples : ℚ))
          • (ps.foldl (fun t p => observeProgressive p t) s).xyz_frame iy ix
        = (s.accumulated_samples : ℚ) • s.xyz_frame iy ix
          + (ps.map fun p => (passN p : ℚ) • passContrib p iy ix).sum := by
  induction ps generalizing s with
  | nil => simp
  | cons p ps ih =>
    have hp : 0 < passN p := h p (List.mem_cons_self p ps)
    have hrest : ∀ q ∈ ps, 0 < passN q := fun q hq =>
      h q (List.mem_cons_of_mem _ hq)
    obtain ⟨ihA, ihF⟩ := ih hrest (observeProgressive p s)
    have hstepA : (observeProgressive p s).accumulated_samples
        = s.accumulated_samples + passN p := rfl
    refine ⟨?_, ?_⟩
    · rw [List.foldl_cons, ihA, hstepA, List.map_cons, List.sum_cons, add_assoc]
    · intro iy ix
      have htQ : totalSamplesQ s.accumulated_samples p ≠ 0 := by
        rw [totalSamplesQ_eq]
        have hNpos : (0 : ℚ) < (passN p : ℚ) := by exact_mod_cast hp
        have hA0 : (0 : ℚ) ≤ (s.accumulated_samples : ℚ) := by positivity
        linarith
      have hstep : ((observeProgressive p s).accumulated_samples : ℚ)
            • (observeProgressive p s).xyz_frame iy ix
          = (s.accumulated_samples : ℚ) • s.xyz_frame iy ix
            + (passN p : ℚ) • passContrib p iy ix := by
        have hAcast : ((observeProgressive p s).accumulated_samples : ℚ)
            = totalSamplesQ s.accumulated_samples p := by
          rw [hstepA, totalSamplesQ_eq]
          push_cast
          ring
        have hxyz : (observeProgressive p s).xyz_frame
            = observeSingleFrame p s.accumulated_samples s.xyz_frame := rfl
        rw [hAcast, hxyz, observeSingleFrame_apply, smul_add, smul_smul,
          smul_smul]
        have h1 : totalSamplesQ s.accumulated_samples p *
            previousWeight s.accumulated_samples p
              = (s.accumulated_samples : ℚ) := by
          unfold previousWeight
          field_simp
        have h2 : totalSamplesQ s.accumulated_samples p *
            addedWeight s.accumulated_samples p = (passN p : ℚ) := by
          unfold addedWeight passN
          field_simp
          ring
        rw [h1, h2]
      rw [List.foldl_cons, ihF iy ix, hstep, List.map_cons, List.sum_cons,
        add_assoc]

/-- The *intended* weighted-mean property: after any sequence of intended
progressive passes with per-pass sample counts
`Nᵢ = pixel_samples * spectral_rays > 0` and per-pixel deterministic pass
contributions `mᵢ` (the channel-summed stub values), starting from a fresh
camera, every cell of `xyz_frame` equals `(Σ Nᵢ • mᵢ) / (Σ Nᵢ)`. -/
lemma runPasses_weighted_mean (ps : List (PassCfg nx ny))
    (h : ∀ p ∈ ps, 0 < passN p) :
    ∀ (iy : Fin ny) (ix : Fin nx),
      (runPasses ps).xyz_frame iy ix
        = ((ps.map fun p => (passN p : ℚ)).sum)⁻¹
            • (ps.map fun p => (passN p : ℚ) • passContrib p iy ix).sum := by
  intro iy ix
  obtain ⟨hA, hF⟩ := runPasses_aux ps h (initState nx ny)
  cases ps with
  | nil => simp [runPasses, initState]
  | cons p ps =>
    have hp : 0 < passN p := h p (List.mem_cons_self p ps)
    have hsum_pos : 0 < ((p :: ps).map passN).sum := by
      rw [List.map_cons, List.sum_cons]
      exact Nat.lt_of_lt_of_le hp (Nat.le_add_right _ _)
    have hAfin : (List.foldl (fun t p => observeProgressive p t)
          (initState nx ny) (p :: ps)).accumulated_samples
        = ((p :: ps).map passN).sum := by
      rw [hA]
      simp [initState]
    have hcast : (((p :: ps).map fun q => (passN q : ℚ)).sum)
        = ((((p :: ps).map passN).sum : ℕ) : ℚ) := by
      rw [Nat.cast_list_sum, List.map_map]
      rfl
    have hSne : ((((p :: ps).map passN).sum : ℕ) : ℚ) ≠ 0 := by
      exact_mod_cast hsum_pos.ne'
    have hweighted : ((((p :: ps).map passN).sum : ℕ) : ℚ)
          • (runPasses (p :: ps)).xyz_frame iy ix
        = ((p :: ps).map fun q => (passN q : ℚ) • passContrib q iy ix).sum := by
      have hthis := hF iy ix
      rw [hAfin] at hthis
      rw [runPasses, hthis]
      simp [initState]
    rw [hcast, ← hweighted, inv_smul_smul₀ hSne]

/-- A second example pass with a different stub, two spectral rays and
three pixel samples (`N = 6`). -/
def passExample2 : PassCfg 1 1 := ⟨⟨375, 740, 2, 20⟩, 3, fun _ _ _ _ _ => (2, 0, 1)⟩

/-! ### Python-level behaviour of the worker-pool path

`self._pixels = np.empty(pixels, dtype=object)` (line 53) makes `_pixels` a
2-D numpy *object array* of pixel objects (the sequential engine reads its
dimensions via `self._pixels.shape`, line 130, and indexes pixels via
`self.pixels[ix, iy]`, line 135).  Several other sites still treat
`_pixels` as the old `(width, height)` tuple; the models below follow
Python/numpy semantics at those sites.  A raised exception is an
`Except.error`; a normal return is `Except.ok`.
-/

/-- Python exceptions raised (or raisable) by this module. -/
inductive PyErr where
  | typeError (msg : String)
  | valueError
  | indexError
  | notImplementedError
  | attributeError (name : String)
deriving DecidableEq

/-- The numpy values that reach the modelled expressions: a Python int, or
a 1-D slice (row) of the 2-D pixel object array with its length. -/
inductive NpVal where
  | int (n : ℤ)
  | objRow (len : ℕ)
deriving DecidableEq

/-- `np.empty((d0, d1), dtype=object)` viewed as an iterable of its `d0`
rows, each a 1-D object array of length `d1`. -/
def npEmptyRows (d0 d1 : ℕ) : List NpVal :=
  List.replicate d0 (NpVal.objRow d1)

/-- Python tuple-unpacking `a, b = xs` of an iterable: succeeds only for
exactly two elements, otherwise raises `ValueError`. -/
def pyUnpack2 (l : List NpVal) : Except PyErr (NpVal × NpVal) :=
  match l with
  | [a, b] => Except.ok (a, b)
  | _ => Except.error PyErr.valueError

/-- Python `range(v)`: requires an integer; a numpy object row is not one
(`TypeError`). -/
def pyRange (v : NpVal) : Except PyErr (List ℤ) :=
  match v with
  | NpVal.int n => Except.ok ((List.range n.toNat).map Int.ofNat)
  | NpVal.objRow _ => Except.error (PyErr.typeError "range arg must be int")

/-- `Camera._producer` (lines 226-231) under Python semantics:
`nx, ny = self._pixels` unpacks the object array itself (its rows), not its
shape, and `range(ny)` is then applied to a row.  Returns the list of
`(x, y)` tasks the producer would enqueue. -/
def producerTasks (d0 d1 : ℕ) : Except PyErr (List (ℤ × ℤ)) := do
  let (nxv, nyv) ← pyUnpack2 (npEmptyRows d0 d1)
  let ys ← pyRange nyv
  let xs ← pyRange nxv
  return ys.flatMap fun y => xs.map fun x => (x, y)

/-- The per-channel sampling events of the sequential engine's *intended*
traversal (`_observe_single` lines 123-136): channel index paired with the
raster coordinate at which `pixel.sample_pixel` would be invoked.  In
execution this traversal never runs to completion: `_start_statistics`
raises at line 112 before the first event, and even were it reached, the
in-loop statistics expression at line 149 raises after the first pixel
(see `startStatistics`, `observeSingleStrict` and the C4 theorem). -/
def sequentialSampleEvents (nx ny R : ℕ) : List (ℕ × (Fin ny × Fin nx)) :=
  (List.range R).flatMap fun i => (rasterCoords nx ny).map fun c => (i, c)

/-- Counting an (index, coordinate) pair in one channel's event list. -/
lemma count_event_map (j : ℕ) (i : ℕ) (c : Fin ny × Fin nx) :
    ((rasterCoords nx ny).map fun d => (j, d)).count (i, c) =
      if j = i then 1 else 0 := by
  rw [count_pair_map, count_rasterCoords]

/-- The intended sequential traversal covers each (channel, coordinate)
pair exactly once per pass. -/
lemma count_sequentialSampleEvents (nx ny R : ℕ) (i : ℕ)
    (c : Fin ny × Fin nx) :
    (sequentialSampleEvents nx ny R).count (i, c) =
      if i < R then 1 else 0 := by
  rw [sequentialSampleEvents, count_flatMap_eq]
  rw [List.map_congr_left fun j _ => @count_event_map nx ny j i c]
  by_cases h : i < R
  · rw [if_pos h]
    exact sum_indicator_nodup (List.range R) i (List.nodup_range R)
      (List.mem_range.mpr h)
  · rw [if_neg h]
    apply List.sum_eq_zero
    intro x hx
    obtain ⟨j, hj, rfl⟩ := List.mem_map.mp hx
    rw [if_neg]
    rintro rfl
    exact h (List.mem_range.mp hj)

/-! ### Attribute resolution on Camera instances

Python resolves `self.name` against the instance attributes assigned in
`Camera.__init__` (lines 37-61) and the methods of the `Camera` class.
Modelled from the spec: the `Observer` base class (raysect.core, not under
src/) supplies only scene-graph linkage (`parent`, `root`, `transform`,
`name` and related plumbing, per §6); it defines neither a `rays`
attribute nor a `_sample_pixel` method, since per the spec the sampling
configuration and the Pixel Sampling Contract belong to the camera surface
itself.
-/

/-- Instance attributes assigned by `Camera.__init__` (lines 37-61). -/
def cameraInstanceAttrs : List String :=
  ["spectral_rays", "spectral_samples", "min_wavelength", "max_wavelength",
   "ray_extinction_prob", "ray_min_depth", "ray_max_depth",
   "display_progress", "display_update_time", "process_count", "_pixels",
   "sensitivity", "pixel_samples", "accumulate", "accumulated_samples",
   "xyz_frame", "frame"]

/-- Methods (and the one property) defined on the `Camera` class body. -/
def cameraMethodNames : List String :=
  ["__init__", "pixels", "_rebuild_pixels", "observe", "_observe_single",
   "_observe_parallel", "_producer", "_worker", "_calc_wvl_channel_config",
   "_start_display", "_update_display", "_final_display",
   "_start_statistics", "_update_statistics", "_final_statistics",
   "display", "save"]

/-- The `self.…` names read by `Camera._observe_parallel` (lines 157-224). -/
def observeParallelSelfReads : List String :=
  ["root", "_start_display", "_start_statistics", "_pixels",
   "accumulated_samples", "pixel_samples", "rays", "process_count",
   "_producer", "_worker", "frame", "_update_display", "_update_statistics",
   "_final_statistics", "_final_display"]

/-- The `self.…` names read by `Camera._worker` (lines 233-256). -/
def workerSelfReads : List String := ["_sample_pixel"]

/-- C3: the worker-pool engine cannot mirror the sequential engine, because
`_observe_parallel` reads `self.rays` (lines 168, 170) and `_worker` calls
`self._sample_pixel` (line 248), and neither name is an instance attribute
assigned by `__init__` nor a method of the class (the constructor's name
for the channel count is `spectral_rays`): Python attribute lookup fails
with `AttributeError` before the parallel engine produces any frame
contents. -/
theorem c3_engine_divergence :
    "rays" ∈ observeParallelSelfReads ∧
    "rays" ∉ cameraInstanceAttrs ∧
    "rays" ∉ cameraMethodNames ∧
    "_sample_pixel" ∈ workerSelfReads ∧
    "_sample_pixel" ∉ cameraInstanceAttrs ∧
    "_sample_pixel" ∉ cameraMethodNames := by
  refine ⟨?_, ?_, ?_, ?_, ?_, ?_⟩ <;> decide

/-! ### The constructor validates none of the count parameters

Embedding of `Camera.__init__` (lines 17-61).  The body assigns attributes
(the `super().__init__` call is scene-graph plumbing, out of scope) and
never examines `spectral_rays`, `spectral_samples`, `pixel_samples` or
`process_count`; the only failing path is numpy's: `np.empty(pixels, …)`
at line 53 (and `zeros((pixels[1], pixels[0], 3))` at lines 60-61) raises
`ValueError` when a pixel dimension is negative.  The configuration fields
are recorded exactly as passed.
-/

/-- The configuration fields assigned by `Camera.__init__`.  `ℤ` is used
for the count-like parameters so that the claim's "values < 1" (including
negative ones) are representable. -/
structure CameraObj where
  spectral_rays : ℤ
  spectral_samples : ℤ
  min_wavelength : ℚ
  max_wavelength : ℚ
  ray_extinction_prob : ℚ
  ray_min_depth : ℤ
  ray_max_depth : ℤ
  display_progress : Bool
  display_update_time : ℚ
  process_count : ℤ
  pixels_dim0 : ℤ
  pixels_dim1 : ℤ
  sensitivity : ℚ
  pixel_samples : ℤ
  accumulate : Bool
  accumulated_samples : ℤ
deriving DecidableEq

/-- `Camera.__init__(pixels, sensitivity, spectral_samples, spectral_rays,
pixel_samples, process_count, …)`: assigns every field (lines 37-61).  The
allocation `np.empty(pixels, dtype=object)` at line 53 raises `ValueError`
for a negative pixel dimension (as would the `zeros` calls at lines 60-61);
on non-negative dimensions every path returns normally — none of the
count-like arguments is examined. -/
def cameraInit (pixels : ℤ × ℤ) (sensitivity : ℚ)
    (spectral_samples spectral_rays pixel_samples process_count : ℤ) :
    Except PyErr CameraObj :=
  if pixels.1 < 0 ∨ pixels.2 < 0 then Except.error PyErr.valueError
  else Except.ok
    { spectral_rays := spectral_rays
      spectral_samples := spectral_samples
      min_wavelength := 375
      max_wavelength := 740
      ray_extinction_prob := 1 / 10
      ray_min_depth := 3
      ray_max_depth := 100
      display_progress := true
      display_update_time := 10
      process_count := process_count
      pixels_dim0 := pixels.1
      pixels_dim1 := pixels.2
      sensitivity := sensitivity
      pixel_samples := pixel_samples
      accumulate := false
      accumulated_samples := 0 }

/-- Counterexample to C7: constructing a camera with spectral channel
count 0, pixel sample count 0 and worker count 0 succeeds and returns a
camera object storing those values — no `InvalidConfiguration` error is
raised. -/
theorem c7_counterexample :
    cameraInit (2, 2) 1 20 0 0 0 = Except.ok
      { spectral_rays := 0
        spectral_samples := 20
        min_wavelength := 375
        max_wavelength := 740
        ray_extinction_prob := 1 / 10
        ray_min_depth := 3
        ray_max_depth := 100
        display_progress := true
        display_update_time := 10
        process_count := 0
        pixels_dim0 := 2
        pixels_dim1 := 2
        sensitivity := 1
        pixel_samples := 0
        accumulate := false
        accumulated_samples := 0 } := rfl

/-- C7 (amended): the constructor never validates the spectral channel
count, the pixel sample count or the worker count — whenever the pixel
dimensions are non-negative (so numpy's allocations succeed), construction
succeeds for every such values, including values below 1, and the camera
object stores them unchanged; the only construction-time failure is
numpy's `ValueError` for a negative pixel dimension (line 53), not an
`InvalidConfiguration` error for the count parameters. -/
theorem c7_no_validation (pixels : ℤ × ℤ) (sensitivity : ℚ)
    (spectral_samples spectral_rays pixel_samples process_count : ℤ) :
    (0 ≤ pixels.1 → 0 ≤ pixels.2 →
      ∃ cam : CameraObj,
        cameraInit pixels sensitivity spectral_samples spectral_rays
            pixel_samples process_count = Except.ok cam ∧
        cam.spectral_rays = spectral_rays ∧
        cam.pixel_samples = pixel_samples ∧
        cam.process_count = process_count ∧
        cam.accumulated_samples = 0 ∧
        cam.accumulate = false) ∧
    (pixels.1 < 0 ∨ pixels.2 < 0 →
      cameraInit pixels sensitivity spectral_samples spectral_rays
          pixel_samples process_count = Except.error PyErr.valueError) := by
  constructor
  · intro h1 h2
    have hcond : ¬ (pixels.1 < 0 ∨ pixels.2 < 0) := by
      rintro (h | h) <;> omega
    have hok : cameraInit pixels sensitivity spectral_samples spectral_rays
        pixel_samples process_count = Except.ok
          { spectral_rays := spectral_rays
            spectral_samples := spectral_samples
            min_wavelength := 375
            max_wavelength := 740
            ray_extinction_prob := 1 / 10
            ray_min_depth := 3
            ray_max_depth := 100
            display_progress := true
            display_update_time := 10
            process_count := process_count
            pixels_dim0 := pixels.1
            pixels_dim1 := pixels.2
            sensitivity := sensitivity
            pixel_samples := pixel_samples
            accumulate := false
            accumulated_samples := 0 } := by
      unfold cameraInit
      rw [if_neg hcond]
    exact ⟨_, hok, rfl, rfl, rfl, rfl, rfl⟩
  · intro hcond
    unfold cameraInit
    rw [if_pos hcond]

/-- Witness for C7 (amended): non-negative 2×2 dimensions with all three
count parameters 0 construct successfully; a −1 pixel dimension raises
numpy's `ValueError`. -/
theorem c7_no_validation_witness :
    ((0 : ℤ) ≤ 2 ∧ (0 : ℤ) ≤ 2 ∧
      ∃ cam : CameraObj,
        cameraInit (2, 2) 1 20 0 0 0 = Except.ok cam ∧
        cam.spectral_rays = 0 ∧
        cam.pixel_samples = 0 ∧
        cam.process_count = 0 ∧
        cam.accumulated_samples = 0 ∧
        cam.accumulate = false) ∧
    (((-1 : ℤ) < 0 ∨ (2 : ℤ) < 0) ∧
      cameraInit (-1, 2) 1 20 1 1 1 = Except.error PyErr.valueError) :=
  ⟨⟨by norm_num, by norm_num,
      (c7_no_validation (2, 2) 1 20 0 0 0).1 (by norm_num) (by norm_num)⟩,
    ⟨Or.inl (by norm_num),
      (c7_no_validation (-1, 2) 1 20 1 1 1).2 (Or.inl (by norm_num))⟩⟩

/-! ### The `observe()` entry sequence under numpy semantics

Embedding of `Camera.observe` lines 81-97: the `World`-connection check
(line 84), the non-progressive reset (lines 88-91), the channel plan
(line 94, pure, cannot fail), and the `_rebuild_pixels` hook (line 97,
which the base class leaves raising `NotImplementedError`).  The reset
evaluates `zeros((self._pixels[1], self._pixels[0], 3))`, where
`self._pixels` is the 2-D pixel *object array* (line 53), so
`self._pixels[1]` is a row of pixel objects, not a dimension; `np.zeros`
requires integer shape entries.  An `Except.error` is a raised exception:
none of the camera's attributes has been reassigned when it propagates, so
the caller observes the pre-call state.
-/

/-- `np.zeros((a, b, 3))`: every shape entry must be an integer. -/
def npZeros3 (a b : NpVal) : Except PyErr Unit :=
  match a, b with
  | NpVal.int _, NpVal.int _ => Except.ok ()
  | _, _ => Except.error (PyErr.typeError "shape entries must be ints")

/-- `self._pixels[i]` on the `d0 × d1` pixel object array: a row of length
`d1` for `i < d0`, `IndexError` otherwise. -/
def pixelsGetItem (d0 d1 : ℕ) (i : ℕ) : Except PyErr NpVal :=
  if i < d0 then Except.ok (NpVal.objRow d1) else Except.error PyErr.indexError

/-- `Camera.observe` lines 81-97 under Python/numpy semantics.
`connected` is `isinstance(self.root, World)`; `accumulate` is
`self.accumulate`; `rebuildImplemented` says whether the camera variant
overrides `_rebuild_pixels`; `engine` abstracts the rest of the call
(lines 100-106) acting on the state that survives the prefix. -/
def observeStrict (connected accumulate rebuildImplemented : Bool)
    (d0 d1 : ℕ) (engine : CamState nx ny → CamState nx ny)
    (s : CamState nx ny) : Except PyErr (CamState nx ny) :=
  if !connected then
    Except.error (PyErr.typeError
      "Observer is not connected to a scene graph containing a World object.")
  else
    (if !accumulate then do
        let dv1 ← pixelsGetItem d0 d1 1
        let dv0 ← pixelsGetItem d0 d1 0
        let _ ← npZeros3 dv1 dv0
        Except.ok (⟨fun _ _ => 0, 0⟩ : CamState nx ny)
      else Except.ok s).bind
      fun s1 =>
        if !rebuildImplemented then Except.error PyErr.notImplementedError
        else Except.ok (engine s1)

/-- C9: the connection check precedes every write — an unconnected
`observe()` raises before touching any state, for every camera variant and
prior state.  But with progressive accumulation disabled the call *also*
raises before completing any write: the reset expression
`zeros((self._pixels[1], self._pixels[0], 3))` itself raises `TypeError`
(rows of the pixel object array are not dimensions), so the buffers are
never zeroed and the counter never reset: a failed non-progressive call
leaves the pre-call state — the geometry-rebuild hook is not even reached,
contradicting the claim that such a failed call leaves the reset state. -/
theorem c9_failed_call_state :
    (∀ (acc rb : Bool) (d0 d1 : ℕ)
        (engine : CamState 1 1 → CamState 1 1) (s : CamState 1 1),
      observeStrict false acc rb d0 d1 engine s =
        Except.error (PyErr.typeError
          "Observer is not connected to a scene graph containing a World object.")) ∧
    (∀ (rb : Bool) (engine : CamState 1 1 → CamState 1 1) (s : CamState 1 1),
      observeStrict true false rb 2 2 engine s =
        Except.error (PyErr.typeError "shape entries must be ints")) :=
  ⟨fun _ _ _ _ _ _ => rfl, fun _ _ _ => rfl⟩

/-- C8: on a 2×2-pixel camera, two different prior states (a fresh state
and an accumulated one) fed to a non-progressive `observe()` produce the
same outcome — but that outcome is the `TypeError` raised by the reset
itself (see C9), not a frame depending only on the call's samples; since
the exception propagates before any assignment, each camera keeps its own
(differing) pre-call buffers. -/
theorem c8_reset_outcome :
    observeStrict true false true 2 2 id stateExample =
      Except.error (PyErr.typeError "shape entries must be ints") ∧
    observeStrict true false true 2 2 id (initState 1 1) =
      Except.error (PyErr.typeError "shape entries must be ints") :=
  ⟨rfl, rfl⟩

/-! ### The aborting statistics prefix of both engines

`_observe_single` (line 112) and `_observe_parallel` (line 163) both call
`_start_statistics` before touching any frame state.  Its line 314 computes
`total_pixels = self._pixels[0] * self._pixels[1]` — an element-wise numpy
product of two rows of pixel objects (`None` initially), which raises
`TypeError` for rows of positive length — and its line 315 reads
`self.rays`, which is not a defined attribute (see `cameraInstanceAttrs` /
`cameraMethodNames`), raising `AttributeError` on the degenerate empty-row
path.  So every pass of either engine aborts here, before the weighting at
lines 115-120 / 167-173, before any frame write, and before `observe()`'s
line-106 counter update. -/

/-- numpy element-wise `*` on the modelled values: ints multiply; a product
involving a row of pixel objects tries `None.__mul__` and raises
`TypeError` unless the row is empty (an empty product yields an empty row;
rows of different lengths fail to broadcast, `ValueError`). -/
def npMul (a b : NpVal) : Except PyErr NpVal :=
  match a, b with
  | NpVal.int m, NpVal.int n => Except.ok (NpVal.int (m * n))
  | NpVal.objRow l1, NpVal.objRow l2 =>
    if l1 = l2 then
      if l1 = 0 then Except.ok (NpVal.objRow 0)
      else Except.error (PyErr.typeError "unsupported operand for pixel objects")
    else Except.error PyErr.valueError
  | NpVal.objRow l, NpVal.int _ =>
    if l = 0 then Except.ok (NpVal.objRow 0)
    else Except.error (PyErr.typeError "unsupported operand for pixel objects")
  | NpVal.int _, NpVal.objRow l =>
    if l = 0 then Except.ok (NpVal.objRow 0)
    else Except.error (PyErr.typeError "unsupported operand for pixel objects")

/-- Attributes supplied by the external `Observer` base class.  Modelled
from the spec: the base (raysect.core, not under src/) provides scene-graph
linkage only (§6) — no sampling configuration. -/
def observerBaseAttrs : List String := ["parent", "root", "transform", "name"]

/-- Python attribute lookup `self.attr` on a `Camera` instance: resolves
against the instance attributes assigned by `__init__`, the class body, and
the `Observer` base; otherwise raises `AttributeError`. -/
def cameraGetAttr (attr : String) : Except PyErr Unit :=
  if attr ∈ cameraInstanceAttrs ∨ attr ∈ cameraMethodNames ∨
      attr ∈ observerBaseAttrs then
    Except.ok ()
  else Except.error (PyErr.attributeError attr)

/-- `Camera._start_statistics` (lines 309-319) under Python/numpy
semantics: evaluate `self._pixels[0]`, `self._pixels[1]`, their element-wise
product (line 314), then the `self.rays` lookup in
`total_work = total_pixels * self.rays` (line 315).  The trailing counter
and timestamp bookkeeping raises nothing and is irrelevant to the frame
state; it is reached on no path anyway. -/
def startStatistics (d0 d1 : ℕ) : Except PyErr Unit :=
  (pixelsGetItem d0 d1 0).bind fun r0 =>
    (pixelsGetItem d0 d1 1).bind fun r1 =>
      (npMul r0 r1).bind fun _ =>
        (cameraGetAttr "rays").bind fun _ => Except.ok ()

/-- `_start_statistics` raises on every pixel-array shape: `IndexError`
for fewer than two rows, `TypeError` from the object-row product for
positive row length, and `AttributeError` (`rays`) on the empty-row path. -/
lemma startStatistics_fails (d0 d1 : ℕ) :
    (startStatistics d0 d1).isOk = false := by
  match d0 with
  | 0 => rfl
  | 1 => rfl
  | d + 2 =>
    have h0 : pixelsGetItem (d + 2) d1 0 = Except.ok (NpVal.objRow d1) := by
      unfold pixelsGetItem
      rw [if_pos (by omega)]
    have h1 : pixelsGetItem (d + 2) d1 1 = Except.ok (NpVal.objRow d1) := by
      unfold pixelsGetItem
      rw [if_pos (by omega)]
    match d1 with
    | 0 =>
      unfold startStatistics
      rw [h0, h1]
      decide
    | e + 1 =>
      have hm : npMul (NpVal.objRow (e + 1)) (NpVal.objRow (e + 1)) =
          Except.error
            (PyErr.typeError "unsupported operand for pixel objects") := by
        show (if e + 1 = e + 1 then
            if e + 1 = 0 then Except.ok (NpVal.objRow 0)
            else Except.error
              (PyErr.typeError "unsupported operand for pixel objects")
          else Except.error PyErr.valueError) =
          Except.error (PyErr.typeError "unsupported operand for pixel objects")
        rw [if_pos rfl, if_neg (Nat.succ_ne_zero e)]
      unfold startStatistics
      rw [h0, h1]
      show ((npMul (NpVal.objRow (e + 1)) (NpVal.objRow (e + 1))).bind
          (fun _ => (cameraGetAttr "rays").bind fun _ =>
            (Except.ok () : Except PyErr Unit))).isOk = false
      rw [hm]
      rfl

/-- `Camera._observe_single` (lines 108-155) under Python semantics:
`_start_display` (line 111) only renders the display frame; then
`_start_statistics` (line 112) is evaluated and raises.  `rest` abstracts
everything after line 112 — the weighting and channel fold of lines
114-146, the in-loop reporting, and `observe()`'s line-106 counter update —
reached on no path. -/
def observeSingleStrict (d0 d1 : ℕ) (rest : CamState nx ny → CamState nx ny)
    (s : CamState nx ny) : Except PyErr (CamState nx ny) :=
  (startStatistics d0 d1).bind fun _ => Except.ok (rest s)

/-- The sequential engine aborts before any frame mutation, for every
pixel-array shape, every continuation and every prior state. -/
lemma observeSingleStrict_fails (d0 d1 : ℕ)
    (rest : CamState nx ny → CamState nx ny) (s : CamState nx ny) :
    (observeSingleStrict d0 d1 rest s).isOk = false := by
  have h := startStatistics_fails d0 d1
  unfold observeSingleStrict
  cases hss : startStatistics d0 d1 with
  | error e => rfl
  | ok u =>
    rw [hss] at h
    exact absurd h (by simp [Except.isOk, Except.toBool])

/-- The prefix of `Camera._observe_parallel` (lines 157-173) under Python
semantics: `world = self.root` and `_start_display` raise nothing and touch
no accumulator state; `_start_statistics` (line 163) raises; the subsequent
`total_pixels = self._pixels[0] * self._pixels[1]` (line 165) and the
`self.rays` reads in the weighting (lines 168-170) are modelled after it in
program order.  No path reaches the channel loop of lines 176-220. -/
def observeParallelPrefixStrict (d0 d1 : ℕ) : Except PyErr Unit :=
  (startStatistics d0 d1).bind fun _ =>
    (pixelsGetItem d0 d1 0).bind fun r0 =>
      (pixelsGetItem d0 d1 1).bind fun r1 =>
        (npMul r0 r1).bind fun _ =>
          (cameraGetAttr "rays").bind fun _ => Except.ok ()

/-- The worker-pool coordinator aborts before creating any queue, producer
or worker and before enqueuing any sentinel, for every pixel-array shape. -/
lemma observeParallelPrefixStrict_fails (d0 d1 : ℕ) :
    (observeParallelPrefixStrict d0 d1).isOk = false := by
  have h := startStatistics_fails d0 d1
  unfold observeParallelPrefixStrict
  cases hss : startStatistics d0 d1 with
  | error e => rfl
  | ok u =>
    rw [hss] at h
    exact absurd h (by simp [Except.isOk, Except.toBool])

/-! ### PinholeCamera geometry setup

`PinholeCamera._setup_pixel_config` (lines 393-417).  Under Python
semantics `max(self._pixels)` iterates the 2-D pixel object array (rows)
and compares rows, which raises for every array that arises; the branch
test `max_pixels > 1` likewise raises on a row.  The guarded arithmetic
itself — the intended reading with `max_pixels = max(width, height)` — is
modelled separately; `fovTanTerm` abstracts the external transcendental
`tan(pi / 180 * 0.5 * self._fov)`, and the `origin` component (an external
scene-graph transform of `Point3D(0, 0, 0)`) is omitted. -/

/-- Python `max()` over the rows of the `d0 × d1` pixel object array:
empty sequence raises `ValueError`; a single row is returned without
comparison; two or more rows are compared with `>`, which compares pixel
objects element-wise and raises `TypeError` (for empty rows the resulting
empty boolean array has no truth value, `ValueError`). -/
def pyMaxRows (d0 d1 : ℕ) : Except PyErr NpVal :=
  match d0 with
  | 0 => Except.error PyErr.valueError
  | 1 => Except.ok (NpVal.objRow d1)
  | _ + 2 =>
    if 0 < d1 then Except.error (PyErr.typeError "object-object comparison")
    else Except.error PyErr.valueError

/-- Python `v > m` for the modelled values: ints compare; comparing an
object row with an int compares pixel objects element-wise (`TypeError`
for nonempty rows, no truth value for empty ones). -/
def pyGtInt (v : NpVal) (m : ℤ) : Except PyErr Bool :=
  match v with
  | NpVal.int n => Except.ok (decide (m < n))
  | NpVal.objRow len =>
    if 0 < len then Except.error (PyErr.typeError "object-int comparison")
    else Except.error PyErr.valueError

/-- The prefix of `_setup_pixel_config` that chooses the branch:
`max_pixels = max(self._pixels)` followed by the test `max_pixels > 1`.
Returns the branch decision if Python ever reached it. -/
def setupPixelBranch (d0 d1 : ℕ) : Except PyErr Bool :=
  (pyMaxRows d0 d1).bind fun mp => pyGtInt mp 1

/-- The intended geometry arithmetic of `_setup_pixel_config` with
`max_pixels` read as the larger image dimension: returns
`(image_delta, image_start_x, image_start_y)`. -/
def setupPixelConfigIntended (d0 d1 : ℕ) (fovTanTerm : ℚ) : ℚ × ℚ × ℚ :=
  if 1 < max d0 d1 then
    (2 * fovTanTerm / ((max d0 d1 : ℚ) - 1),
     (1 / 2 : ℚ) * (d0 : ℚ) * (2 * fovTanTerm / ((max d0 d1 : ℚ) - 1)),
     (1 / 2 : ℚ) * (d1 : ℚ) * (2 * fovTanTerm / ((max d0 d1 : ℚ) - 1)))
  else (0, 0, 0)

/-- C10: as written, `_setup_pixel_config` never reaches either branch —
`max(self._pixels)` / `max_pixels > 1` raise for every image dimension, so
the function is *not* total on the actual pixel object array.  The claimed
division safety does hold for the intended arithmetic: with both
dimensions ≥ 1, the single-ray branch (larger dimension 1) returns zero
step and zero start, and otherwise the divisor `max_pixels - 1` is nonzero
and the returned tuple is the guarded division's closed form. -/
theorem c10_pinhole_setup :
    (∀ d0 d1 : ℕ, (setupPixelBranch d0 d1).isOk = false) ∧
    (∀ (d0 d1 : ℕ) (t : ℚ), 1 ≤ d0 → 1 ≤ d1 →
      (max d0 d1 = 1 → setupPixelConfigIntended d0 d1 t = (0, 0, 0)) ∧
      (1 < max d0 d1 →
        ((max d0 d1 : ℚ) - 1 ≠ 0 ∧
         setupPixelConfigIntended d0 d1 t =
           (2 * t / ((max d0 d1 : ℚ) - 1),
            (1 / 2 : ℚ) * (d0 : ℚ) * (2 * t / ((max d0 d1 : ℚ) - 1)),
            (1 / 2 : ℚ) * (d1 : ℚ) * (2 * t / ((max d0 d1 : ℚ) - 1)))))) := by
  constructor
  · intro d0 d1
    match d0 with
    | 0 => rfl
    | 1 =>
      show (pyGtInt (NpVal.objRow d1) 1).isOk = false
      by_cases h : 0 < d1
      · simp [pyGtInt, h, Except.isOk, Except.toBool]
      · simp [pyGtInt, h, Except.isOk, Except.toBool]
    | d + 2 =>
      show ((if 0 < d1 then Except.error (PyErr.typeError
          "object-object comparison")
        else (Except.error PyErr.valueError : Except PyErr NpVal)).bind
          fun mp => pyGtInt mp 1).isOk = false
      by_cases h : 0 < d1
      · rw [if_pos h]
        rfl
      · rw [if_neg h]
        rfl
  · intro d0 d1 t h0 h1
    constructor
    · intro hmax
      unfold setupPixelConfigIntended
      rw [if_neg (by omega)]
    · intro hmax
      have hcast : (2 : ℚ) ≤ (max d0 d1 : ℚ) := by exact_mod_cast hmax
      have hne : (max d0 d1 : ℚ) - 1 ≠ 0 := by linarith
      refine ⟨hne, ?_⟩
      unfold setupPixelConfigIntended
      rw [if_pos hmax]

/-- Witness for C10: the actual branch prefix raises on a 1×1 image, and
the intended arithmetic on a 2×2 image divides by `max 2 2 - 1 = 1 ≠ 0`. -/
theorem c10_pinhole_setup_witness :
    (setupPixelBranch 1 1).isOk = false ∧
    (1 ≤ 2 ∧ 1 ≤ 2 ∧ 1 < max 2 2) ∧
    ((max 2 2 : ℚ) - 1 ≠ 0 ∧
     setupPixelConfigIntended 2 2 1 =
       (2 * 1 / ((max 2 2 : ℚ) - 1),
        (1 / 2 : ℚ) * (2 : ℚ) * (2 * 1 / ((max 2 2 : ℚ) - 1)),
        (1 / 2 : ℚ) * (2 : ℚ) * (2 * 1 / ((max 2 2 : ℚ) - 1)))) :=
  ⟨c10_pinhole_setup.1 1 1, ⟨by norm_num, by norm_num, by norm_num⟩,
    (c10_pinhole_setup.2 2 2 1 (by norm_num) (by norm_num)).2 (by norm_num)⟩

/-! ### The worker-pool coordinator's *written* per-channel protocol

The instruction sequence that the text of `Camera._observe_parallel`
(lines 176-220) and `Camera._worker` (lines 238-245) prescribes, at the
level of queue/process operations.  Per channel the written loop body:
creates the two queues (184-185), starts the producer (188-189), starts
`W` workers (192-198), dequeues exactly `total_pixels` results (201-216),
then enqueues `W` `None` sentinels (219-220).  `joinWorker` stands for
`Process.join` — the operation that waits for a worker to terminate; no
join appears anywhere in the method.

IMPORTANT CAVEAT: in execution this protocol is never reached —
`_observe_parallel` raises in its prefix at lines 163-170
(`_start_statistics`, the object-row `total_pixels` product, the undefined
`self.rays`) before any queue, producer, worker or sentinel exists; see
`observeParallelPrefixStrict` and the leading conjunct of the C5 theorem.
The trace definitions below therefore describe the written loop body, not
an execution. -/

/-- One coordinator operation. -/
inductive CAction where
  | createTaskQueue
  | createResultQueue
  | startProducer
  | startWorker (i : ℕ)
  | getResult (k : ℕ)
  | putSentinel (i : ℕ)
  | joinWorker (i : ℕ)
deriving DecidableEq

/-- Is this a sentinel enqueue (`task_queue.put(None)`)? -/
def CAction.isSentinelPut : CAction → Bool
  | CAction.putSentinel _ => true
  | _ => false

/-- Is this a result dequeue (`result_queue.get()`)? -/
def CAction.isResultGet : CAction → Bool
  | CAction.getResult _ => true
  | _ => false

/-- Is this a wait for worker termination (`Process.join`)? -/
def CAction.isJoin : CAction → Bool
  | CAction.joinWorker _ => true
  | _ => false

/-- The coordinator's operations for one spectral channel as written
(`_observe_parallel` loop body, lines 176-220), in program order; never
executed (see the section caveat and `observeParallelPrefixStrict`). -/
def coordinatorChannelTrace (W P : ℕ) : List CAction :=
  [CAction.createTaskQueue, CAction.createResultQueue, CAction.startProducer]
    ++ ((List.range W).map CAction.startWorker)
    ++ ((List.range P).map CAction.getResult)
    ++ ((List.range W).map CAction.putSentinel)

/-- The coordinator's operations for a whole pass as written: the channel
loop body repeated for each of the `R` planned channels, with nothing in
between; never executed (the raising prefix of lines 163-170 precedes the
loop — see `observeParallelPrefixStrict`). -/
def observeParallelTrace (R W P : ℕ) : List CAction :=
  (List.range R).flatMap fun _ => coordinatorChannelTrace W P

/-- The final contents, in enqueue order, of one channel's task queue: the
producer's coordinate tasks followed by the coordinator's `W` `None`
sentinels (lines 219-220; the sentinels are enqueued after the result loop,
hence after every task has already been dequeued and answered). -/
def taskQueueContents (tasks : List (ℤ × ℤ)) (W : ℕ) :
    List (Option (ℤ × ℤ)) :=
  (tasks.map some) ++ List.replicate W none

/-- A delivery of queue elements to workers.  `sched i = w` says worker `w`
dequeued element `i`.  Validity is the worker loop of `_worker`
(lines 238-245): a worker that dequeues a sentinel (`None`) `break`s, so it
performs no later dequeue. -/
def ValidDelivery (q : List (Option (ℤ × ℤ))) (W : ℕ)
    (sched : Fin q.length → Fin W) : Prop :=
  ∀ i j : Fin q.length, sched i = sched j → q.get i = none → i < j → False

/-- An element of the final task queue is a sentinel exactly when its
position is past the producer's tasks. -/
lemma taskQueue_get_none_iff (tasks : List (ℤ × ℤ)) (W : ℕ)
    (i : Fin (taskQueueContents tasks W).length) :
    (taskQueueContents tasks W).get i = none ↔ tasks.length ≤ i.1 := by
  rw [List.get_eq_getElem]
  have hlen : (taskQueueContents tasks W).length = tasks.length + W := by
    simp [taskQueueContents]
  by_cases h : i.1 < tasks.length
  · have hmap : i.1 < (tasks.map some).length := by
      rw [List.length_map]
      exact h
    have : (taskQueueContents tasks W)[i.1] = (tasks.map some)[i.1] :=
      List.getElem_append_left hmap
    rw [this, List.getElem_map]
    simp
    omega
  · have hmap : (tasks.map some).length ≤ i.1 := by
      rw [List.length_map]
      omega
    have hi2 : i.1 - (tasks.map some).length <
        (List.replicate W (none : Option (ℤ × ℤ))).length := by
      rw [List.length_map, List.length_replicate]
      have hiv : i.1 < tasks.length + W := lt_of_lt_of_eq i.2 hlen
      omega
    have : (taskQueueContents tasks W)[i.1] =
        (List.replicate W (none : Option (ℤ × ℤ)))[i.1 - (tasks.map some).length] := by
      exact List.getElem_append_right hmap
    rw [this, List.getElem_replicate]
    simp
    omega

/-- Under any valid delivery each worker dequeues exactly one sentinel:
the sentinels are the last `W` queue elements, a worker stops at its first
sentinel, so distinct sentinels reach distinct workers, and `W` sentinels
among `W` workers pigeonhole to exactly one each. -/
lemma sentinel_delivery (tasks : List (ℤ × ℤ)) (W : ℕ)
    (sched : Fin (taskQueueContents tasks W).length → Fin W)
    (hv : ValidDelivery (taskQueueContents tasks W) W sched) (w : Fin W) :
    ∃! i : Fin (taskQueueContents tasks W).length,
      (taskQueueContents tasks W).get i = none ∧ sched i = w := by
  have hlen : (taskQueueContents tasks W).length = tasks.length + W := by
    simp [taskQueueContents]
  let embed : Fin W → Fin (taskQueueContents tasks W).length := fun s =>
    ⟨tasks.length + s.1, by rw [hlen]; omega⟩
  have hembed_none : ∀ s, (taskQueueContents tasks W).get (embed s) = none := by
    intro s
    rw [taskQueue_get_none_iff]
    show tasks.length ≤ tasks.length + s.1
    omega
  have hinj : Function.Injective (fun s => sched (embed s)) := by
    intro s1 s2 heq
    by_contra hne
    rcases Nat.lt_or_ge s1.1 s2.1 with hlt | hge
    · refine hv (embed s1) (embed s2) heq (hembed_none s1) ?_
      show tasks.length + s1.1 < tasks.length + s2.1
      omega
    · have hlt2 : s2.1 < s1.1 := by
        rcases Nat.lt_or_ge s2.1 s1.1 with h2 | h2
        · exact h2
        · exact absurd (Fin.ext (by omega)) hne
      refine hv (embed s2) (embed s1) heq.symm (hembed_none s2) ?_
      show tasks.length + s2.1 < tasks.length + s1.1
      omega
  have hsurj : Function.Surjective (fun s => sched (embed s)) :=
    Finite.injective_iff_surjective.mp hinj
  obtain ⟨s, hs⟩ := hsurj w
  have hs2 : sched (embed s) = w := hs
  refine ⟨embed s, ⟨hembed_none s, hs2⟩, ?_⟩
  intro j hj
  obtain ⟨hjnone, hjw⟩ := hj
  have hjge : tasks.length ≤ j.1 := (taskQueue_get_none_iff tasks W j).mp hjnone
  have hjlt : j.1 - tasks.length < W := by
    have hjv : j.1 < tasks.length + W := lt_of_lt_of_eq j.2 hlen
    omega
  have hj_embed : j = embed ⟨j.1 - tasks.length, hjlt⟩ := by
    apply Fin.ext
    show j.1 = tasks.length + (j.1 - tasks.length)
    omega
  have hss : (⟨j.1 - tasks.length, hjlt⟩ : Fin W) = s := by
    apply hinj
    show sched (embed ⟨j.1 - tasks.length, hjlt⟩) = sched (embed s)
    rw [← hj_embed, hjw, hs2]
  rw [hj_embed, hss]

/-- Counterexample to C5's waiting clause: even the *written* coordinator
trace of a two-channel, two-worker, four-pixel pass contains no
`Process.join` (no wait-for-worker-termination operation) anywhere — in
particular none between one channel's sentinel enqueues and the next
channel's startup — so the coordinator never waits for workers to
terminate (and in execution the pass aborts even earlier, before any
worker exists: see the C5 theorem's leading conjunct). -/
theorem c5_counterexample :
    (observeParallelTrace 2 2 4).all (fun a => !a.isJoin) = true := by decide

/-- C5 (amended): in execution the worker-pool pass aborts in the prefix of
`_observe_parallel` (lines 163-170) for every pixel-array shape, before any
queue, producer, worker or sentinel exists — so no sentinel is ever
enqueued at all.  The channel-loop body as *written* (lines 176-220) does
prescribe: exactly `W` sentinel enqueues, placed only after all
`total_pixel_count` result dequeues (the trace is a sentinel-free prefix
containing the `P` result dequeues, followed by the `W` sentinel enqueues),
and under the worker loop's semantics each of the `W` workers would dequeue
exactly one sentinel; but the written coordinator never waits for the
workers to terminate — its trace contains no join — before proceeding to
the next channel. -/
theorem c5_sentinel_protocol (W P : ℕ) (hW : 0 < W) :
    (∀ d0 d1 : ℕ, (observeParallelPrefixStrict d0 d1).isOk = false) ∧
    ((coordinatorChannelTrace W P).filter (fun a => a.isSentinelPut)).length
        = W ∧
    (∃ pre : List CAction,
      coordinatorChannelTrace W P =
          pre ++ (List.range W).map CAction.putSentinel ∧
      (∀ a ∈ pre, a.isSentinelPut = false) ∧
      (pre.filter fun a => a.isResultGet).length = P) ∧
    ((coordinatorChannelTrace W P).all fun a => !a.isJoin) = true ∧
    (∀ (tasks : List (ℤ × ℤ))
        (sched : Fin (taskQueueContents tasks W).length → Fin W),
      ValidDelivery (taskQueueContents tasks W) W sched →
      ∀ w : Fin W,
        ∃! i : Fin (taskQueueContents tasks W).length,
          (taskQueueContents tasks W).get i = none ∧ sched i = w) := by
  have hW' : 0 < W := hW
  refine ⟨observeParallelPrefixStrict_fails, ?_, ?_, ?_, ?_⟩
  · rw [coordinatorChannelTrace, List.filter_append, List.filter_append,
      List.filter_append]
    have h1 : ([CAction.createTaskQueue, CAction.createResultQueue,
        CAction.startProducer].filter fun a => a.isSentinelPut) = [] := rfl
    have h2 : (((List.range W).map CAction.startWorker).filter
        fun a => a.isSentinelPut) = [] := by
      apply List.filter_eq_nil_iff.mpr
      intro a ha
      obtain ⟨i, _, rfl⟩ := List.mem_map.mp ha
      simp [CAction.isSentinelPut]
    have h3 : (((List.range P).map CAction.getResult).filter
        fun a => a.isSentinelPut) = [] := by
      apply List.filter_eq_nil_iff.mpr
      intro a ha
      obtain ⟨i, _, rfl⟩ := List.mem_map.mp ha
      simp [CAction.isSentinelPut]
    have h4 : (((List.range W).map CAction.putSentinel).filter
        fun a => a.isSentinelPut) = (List.range W).map CAction.putSentinel := by
      apply List.filter_eq_self.mpr
      intro a ha
      obtain ⟨i, _, rfl⟩ := List.mem_map.mp ha
      rfl
    rw [h1, h2, h3, h4]
    simp
  · refine ⟨[CAction.createTaskQueue, CAction.createResultQueue,
      CAction.startProducer]
        ++ ((List.range W).map CAction.startWorker)
        ++ ((List.range P).map CAction.getResult), ?_, ?_, ?_⟩
    · rw [coordinatorChannelTrace]
    · intro a ha
      rcases List.mem_append.mp ha with ha2 | ha3
      · rcases List.mem_append.mp ha2 with ha4 | ha5
        · simp only [List.mem_cons, List.not_mem_nil, or_false] at ha4
          rcases ha4 with rfl | rfl | rfl <;> rfl
        · obtain ⟨i, _, rfl⟩ := List.mem_map.mp ha5
          rfl
      · obtain ⟨i, _, rfl⟩ := List.mem_map.mp ha3
        rfl
    · rw [List.filter_append, List.filter_append]
      have h1 : ([CAction.createTaskQueue, CAction.createResultQueue,
          CAction.startProducer].filter fun a => a.isResultGet) = [] := rfl
      have h2 : (((List.range W).map CAction.startWorker).filter
          fun a => a.isResultGet) = [] := by
        apply List.filter_eq_nil_iff.mpr
        intro a ha
        obtain ⟨i, _, rfl⟩ := List.mem_map.mp ha
        simp [CAction.isResultGet]
      have h3 : (((List.range P).map CAction.getResult).filter
          fun a => a.isResultGet) = (List.range P).map CAction.getResult := by
        apply List.filter_eq_self.mpr
        intro a ha
        obtain ⟨i, _, rfl⟩ := List.mem_map.mp ha
        rfl
      rw [h1, h2, h3]
      simp
  · apply List.all_eq_true.mpr
    intro a ha
    rw [coordinatorChannelTrace] at ha
    rcases List.mem_append.mp ha with ha1 | ha4
    · rcases List.mem_append.mp ha1 with ha2 | ha3
      · rcases List.mem_append.mp ha2 with ha5 | ha6
        · simp only [List.mem_cons, List.not_mem_nil, or_false] at ha5
          rcases ha5 with rfl | rfl | rfl <;> rfl
        · obtain ⟨i, _, rfl⟩ := List.mem_map.mp ha6
          rfl
      · obtain ⟨i, _, rfl⟩ := List.mem_map.mp ha3
        rfl
    · obtain ⟨i, _, rfl⟩ := List.mem_map.mp ha4
      rfl
  · intro tasks sched hv w
    exact sentinel_delivery tasks W sched hv w

/-- Witness for C5 (amended) at two workers and four pixels. -/
theorem c5_sentinel_protocol_witness :
    0 < 2 ∧
    ((∀ d0 d1 : ℕ, (observeParallelPrefixStrict d0 d1).isOk = false) ∧
    ((coordinatorChannelTrace 2 4).filter (fun a => a.isSentinelPut)).length
        = 2 ∧
    (∃ pre : List CAction,
      coordinatorChannelTrace 2 4 =
          pre ++ (List.range 2).map CAction.putSentinel ∧
      (∀ a ∈ pre, a.isSentinelPut = false) ∧
      (pre.filter fun a => a.isResultGet).length = 4) ∧
    ((coordinatorChannelTrace 2 4).all fun a => !a.isJoin) = true ∧
    (∀ (tasks : List (ℤ × ℤ))
        (sched : Fin (taskQueueContents tasks 2).length → Fin 2),
      ValidDelivery (taskQueueContents tasks 2) 2 sched →
      ∀ w : Fin 2,
        ∃! i : Fin (taskQueueContents tasks 2).length,
          (taskQueueContents tasks 2).get i = none ∧ sched i = w)) :=
  ⟨by decide, c5_sentinel_protocol 2 4 (by decide)⟩

/-- C1: the claimed weighted-mean invariant is never realised by the
program — every sequential pass aborts inside `_start_statistics`
(line 112, evaluated before the line-120 scaling and any frame write) for
every pixel-array shape: `TypeError` from the object-row product at
line 314 (positive row lengths, e.g. 2×2), `AttributeError` for the
undefined `rays` at line 315 on the degenerate empty-row path — so no
`observe()` pass ever completes and the buffer never holds the weighted
mean.  The *intended* accumulation algebra of lines 114-143 and 105-106
does satisfy the invariant: starting from a fresh camera, after intended
passes with sample counts `Nᵢ = pixel_samples * spectral_rays > 0` and
per-pixel contributions `mᵢ` (channel-summed stub values), every cell
equals `(Σ Nᵢ • mᵢ) / (Σ Nᵢ)`, however the samples were split across calls
or channels. -/
theorem c1_weighted_mean :
    (∀ d0 d1 : ℕ, (startStatistics d0 d1).isOk = false) ∧
    startStatistics 2 2 =
      Except.error (PyErr.typeError "unsupported operand for pixel objects") ∧
    startStatistics 2 0 = Except.error (PyErr.attributeError "rays") ∧
    (∀ (w h : ℕ) (ps : List (PassCfg w h)), (∀ p ∈ ps, 0 < passN p) →
      ∀ (iy : Fin h) (ix : Fin w),
        (runPasses ps).xyz_frame iy ix
          = ((ps.map fun p => (passN p : ℚ)).sum)⁻¹
              • (ps.map fun p => (passN p : ℚ) • passContrib p iy ix).sum) :=
  ⟨startStatistics_fails, rfl, rfl,
    fun _ _ ps h => runPasses_weighted_mean ps h⟩

/-- Witness for C1: the intended-behaviour conjunct applied at two concrete
passes on a 1×1 frame. -/
theorem c1_weighted_mean_witness :
    (∀ p ∈ [passExample, passExample2], 0 < passN p) ∧
    ∀ (iy : Fin 1) (ix : Fin 1),
      (runPasses [passExample, passExample2]).xyz_frame iy ix
        = (([passExample, passExample2].map fun p => (passN p : ℚ)).sum)⁻¹
            • ([passExample, passExample2].map
                fun p => (passN p : ℚ) • passContrib p iy ix).sum :=
  ⟨by decide,
    c1_weighted_mean.2.2.2 1 1 [passExample, passExample2] (by decide)⟩

/-- C2: the weight formulas the claim describes are the ones written at
lines 115-120/106, but "on successful completion" describes an unreachable
execution: `_observe_single` raises inside `_start_statistics` (line 112)
before the scaling, for every pixel-array shape, every prior state and
every continuation, so the line-106 counter update never runs.  The
*intended* pass denoted by those lines has exactly the claimed form: the
frame is scaled once by `previous_weight = A/(A+N)`, each of the per-pixel
per-channel contributions is added with `added_weight = N/(A+N)`, and the
counter becomes `A + N`. -/
theorem c2_pass_weights :
    (∀ (w h d0 d1 : ℕ) (rest : CamState w h → CamState w h)
        (s : CamState w h),
      (observeSingleStrict d0 d1 rest s).isOk = false) ∧
    (∀ (w h : ℕ) (p : PassCfg w h) (s : CamState w h), 0 < passN p →
      (observeProgressive p s).accumulated_samples
          = s.accumulated_samples + passN p ∧
      ∀ (iy : Fin h) (ix : Fin w),
        (observeProgressive p s).xyz_frame iy ix
          = ((s.accumulated_samples : ℚ) /
                ((s.accumulated_samples : ℚ) + (passN p : ℚ)))
              • s.xyz_frame iy ix
            + ((passN p : ℚ) /
                ((s.accumulated_samples : ℚ) + (passN p : ℚ)))
              • passContrib p iy ix) :=
  ⟨fun _ _ d0 d1 rest s => observeSingleStrict_fails d0 d1 rest s,
   fun _ _ p s hN => observeProgressive_closed_form p s hN⟩

/-- Witness for C2: the intended-behaviour conjunct applied at a concrete
pass on a concrete prior state. -/
theorem c2_pass_weights_witness :
    0 < passN passExample ∧
    ((observeProgressive passExample stateExample).accumulated_samples
        = stateExample.accumulated_samples + passN passExample ∧
    ∀ (iy : Fin 1) (ix : Fin 1),
      (observeProgressive passExample stateExample).xyz_frame iy ix
        = ((stateExample.accumulated_samples : ℚ) /
              ((stateExample.accumulated_samples : ℚ) +
                (passN passExample : ℚ)))
            • stateExample.xyz_frame iy ix
          + ((passN passExample : ℚ) /
              ((stateExample.accumulated_samples : ℚ) +
                (passN passExample : ℚ)))
            • passContrib passExample iy ix) :=
  ⟨by decide, c2_pass_weights.2 1 1 passExample stateExample (by decide)⟩

/-- C4: neither engine achieves exactly-once coverage in execution.  The
worker-pool producer (`nx, ny = self._pixels`, line 228) raises before
enqueuing any coordinate — `TypeError` on a 2-row pixel array (`range`
applied to an object row), `ValueError` otherwise — so no pixel is sampled
there; and the sequential engine aborts in `_start_statistics` (line 112)
before invoking the contract on any pixel, for every shape, state and
continuation; moreover the in-loop statistics expression
`self._pixels[0] * iy` (line 149) raises for every positive row length, so
even with a repaired reporter start the traversal would abort after its
first pixel.  The *intended* sequential traversal of lines 123-136 would
cover each (channel, pixel) pair exactly once per pass (`count = 1`
exactly for channel indices below `spectral_rays`). -/
theorem c4_coverage :
    producerTasks 2 2 = Except.error (PyErr.typeError "range arg must be int") ∧
    producerTasks 512 512 = Except.error PyErr.valueError ∧
    (∀ (w h d0 d1 : ℕ) (rest : CamState w h → CamState w h)
        (s : CamState w h),
      (observeSingleStrict d0 d1 rest s).isOk = false) ∧
    (∀ (d1 : ℕ) (iy : ℤ), 0 < d1 →
      npMul (NpVal.objRow d1) (NpVal.int iy) =
        Except.error (PyErr.typeError "unsupported operand for pixel objects")) ∧
    (∀ (w h R : ℕ) (i : ℕ) (c : Fin h × Fin w),
      (sequentialSampleEvents w h R).count (i, c) =
        if i < R then 1 else 0) :=
  ⟨rfl, rfl,
   fun _ _ d0 d1 rest s => observeSingleStrict_fails d0 d1 rest s,
   fun d1 iy h => by
     show (if d1 = 0 then Except.ok (NpVal.objRow 0)
       else Except.error
         (PyErr.typeError "unsupported operand for pixel objects")) =
       Except.error (PyErr.typeError "unsupported operand for pixel objects")
     rw [if_neg (by omega)],
   count_sequentialSampleEvents⟩

/-- Witness for C4: the line-149 conjunct applied at a concrete row length
and loop index. -/
theorem c4_coverage_witness :
    0 < 2 ∧
    npMul (NpVal.objRow 2) (NpVal.int 1) =
      Except.error (PyErr.typeError "unsupported operand for pixel objects") :=
  ⟨by decide, c4_coverage.2.2.2.1 2 1 (by decide)⟩

end RefactoredCameras
